import Mathlib

/-!
Verification of the email sender core of `notify-plugins`
(`pkg/email/sender.go`), shallowly embedded in Lean 4.

The embedding mirrors the Go source:
* `ConfigMap` models the key/value configuration cache.
* `sSender` models a connection worker; its event loop body
  (`sSender.Run`) is embedded as the one-iteration step function
  `sSender.runStep`, parametrised by which `select` arm fired and by the
  outcomes of the external transport calls (dial / send / close).
* `SEmailSender` models the dispatcher; channels are modelled by their
  observable state (`ChanState` for the stop channel, an optional list of
  pending messages for the shared queue, where `none` is the Go nil channel).
* Go panics (close of a closed channel) are made explicit with `Except`.
-/

namespace NotifyEmail

/-- Configuration key/value store contents (the common.SConfigCache data). -/
abbrev ConfigMap := List (String × String)

/-- `Get(key) -> (value, found)` of the config store, as an optional value. -/
def cfgGet (m : ConfigMap) (k : String) : Option String :=
  (m.find? (fun p => p.1 = k)).map (fun p => p.2)

/-- Modelled from the spec: the configuration key constants (HOSTNAME etc.)
are declared outside the included source file; the spec names the required
keys "hostname, port, username, password" and the scenario message
"require password" fixes the spelling of the password key. -/
def HOSTNAME : String := "hostname"

/-- Modelled from the spec: the host-port configuration key. -/
def HOSTPORT : String := "hostport"

/-- Modelled from the spec: the username configuration key. -/
def USERNAME : String := "username"

/-- Modelled from the spec: the password configuration key. -/
def PASSWORD : String := "password"

/-- Modelled from the spec: the per-instance SSL flag key. -/
def SSL : String := "ssl"

/-- Modelled from the spec: the global SSL override key. -/
def GLOBALSSL : String := "global_ssl"

/-- Modelled from the spec: `BatchGet(keys) -> (values, allFound,
firstMissingKey)` of the common package (not under the included sources):
values in key order, whether all keys were found, and the first missing key. -/
def batchGet (m : ConfigMap) (keys : List String) : List String × Bool × String :=
  (keys.map (fun k => (cfgGet m k).getD ""),
   keys.all (fun k => (cfgGet m k).isSome),
   (keys.find? (fun k => (cfgGet m k).isNone)).getD "")

/-- Modelled from the spec: `common.CheckMap` has the `BatchGet` contract
applied to a plain map argument. -/
def checkMap (m : ConfigMap) (keys : List String) : List String × Bool × String :=
  batchGet m keys

/-- Decimal digits to a number, `none` if empty or non-digit. -/
def parseDigits (cs : List Char) : Option Nat :=
  if cs = [] then none
  else if cs.all Char.isDigit then
    some (cs.foldl (fun a c => a * 10 + (c.toNat - 48)) 0)
  else none

/-- The Go `strconv.Atoi`: optional sign followed by decimal digits;
`none` models a returned error. -/
def atoi (s : String) : Option Int :=
  match s.data with
  | '+' :: rest => (parseDigits rest).map Int.ofNat
  | '-' :: rest => (parseDigits rest).map (fun n => -(n : Int))
  | cs => (parseDigits cs).map Int.ofNat

/-- The Go `strconv.Atoi` value with the error discarded (`v, _ :=`):
the zero value 0 on a parse error. -/
def atoiOrZero (s : String) : Int :=
  (atoi s).getD 0

/-- Whether the first list is a contiguous leading block of the second. -/
def listPrefixOf : List Char → List Char → Bool
  | [], _ => true
  | _ :: _, [] => false
  | a :: as, b :: bs => a = b && listPrefixOf as bs

/-- Whether `pat` occurs contiguously somewhere in the list. -/
def listContainsSub (pat : List Char) : List Char → Bool
  | [] => listPrefixOf pat []
  | c :: cs => listPrefixOf pat (c :: cs) || listContainsSub pat cs

/-- The Go `strings.Contains s pat`. -/
def strContains (s pat : String) : Bool :=
  listContainsSub pat.data s.data

/-- The dialer built by `gomail.NewDialer` plus the SSL flag the sender code
sets on it (the TLS config is not observable in any claim). -/
structure Dialer where
  host : String
  port : Int
  username : String
  password : String
  ssl : Bool
  deriving DecidableEq

/-- `SConnectInfo` from the source. -/
structure SConnectInfo where
  Hostname : String
  Hostport : Int
  Username : String
  Password : String
  Ssl : Bool
  deriving DecidableEq

/-- Observable state of a Go channel used as a stop signal: nil
(zero value, never made), open, or closed. -/
inductive ChanState
  | nilC
  | openC
  | closedC
  deriving DecidableEq

/-- A Go panic reachable in the embedded code. -/
inductive Panic
  | closeOfClosedChannel
  deriving DecidableEq

/-- `sSender`: one connection worker. The live connection handle is an
abstract identifier; `openFlag` is the field called open in the source. -/
structure sSender where
  number : Nat
  dialer : Dialer
  sender : Option Nat
  openFlag : Bool
  stopC : ChanState
  closeFailedTimes : Nat
  deriving DecidableEq

/-- `sSender.stop`: a no-op when the stop channel is nil (never started);
closing a closed Go channel panics. -/
def sSender.stop (s : sSender) : Except Panic sSender :=
  match s.stopC with
  | .nilC => .ok s
  | .openC => .ok { s with stopC := .closedC }
  | .closedC => .error .closeOfClosedChannel

/-- Which `select` arm of the worker loop fired: a message was dequeued
(with the channel-receive ok flag), the stop channel fired, or the
30-second idle timer fired. -/
inductive WEvent
  | msgEv (m : Nat) (chOk : Bool)
  | stopEv
  | idleEv
  deriving DecidableEq

/-- Result of `dialer.Dial()`: a connection handle or an error string. -/
inductive DialResult
  | conn (c : Nat)
  | dialErr (e : String)
  deriving DecidableEq

/-- Outcomes of the external transport calls available to one loop
iteration: `dial` yields a connection handle or an error string, `sendErr`
and `closeErr` are the error results of `gomail.Send` and `Close`. -/
structure Transport where
  dial : DialResult
  sendErr : Option String
  closeErr : Option String
  deriving DecidableEq

/-- Result of one iteration of the worker loop: the worker state after it,
the booleans sent on the result channel of the dequeued unit during it, and
whether the loop exited (`break Loop`). -/
structure StepResult where
  st : sSender
  signals : List Bool
  exited : Bool
  deriving DecidableEq

/-- One iteration of `sSender.Run`, translated arm by arm from the source.
Note that the dequeued-message arm handles the message only under
`if !self.open`: when the worker is open the iteration does nothing. -/
def sSender.runStep (s : sSender) (ev : WEvent) (tr : Transport) : StepResult :=
  match ev with
  | .msgEv _ false => ⟨s, [], true⟩
  | .msgEv _ true =>
    if !s.openFlag then
      match tr.dial with
      | .dialErr _ => ⟨{ s with sender := none }, [false], false⟩
      | .conn c =>
        let s1 : sSender := { s with sender := some c, openFlag := true }
        match tr.sendErr with
        | some _ => ⟨{ s1 with openFlag := false }, [false], false⟩
        | none => ⟨s1, [true], false⟩
    else
      ⟨s, [], false⟩
  | .stopEv => ⟨s, [], true⟩
  | .idleEv =>
    if s.openFlag then
      match tr.closeErr with
      | some _ =>
        if s.closeFailedTimes > 2 then
          ⟨{ s with closeFailedTimes := 0, openFlag := false }, [], false⟩
        else
          ⟨{ s with closeFailedTimes := s.closeFailedTimes + 1 }, [], false⟩
      | none => ⟨{ s with openFlag := false }, [], false⟩
    else
      ⟨s, [], false⟩

/-- `SEmailSender`: the dispatcher. `msgChan` is the shared queue channel:
`none` is the Go nil channel (never made), `some q` holds the pending message
identifiers in arrival order. -/
structure SEmailSender where
  msgChan : Option (List Nat)
  senders : List sSender
  senderNum : Nat
  chanelSize : Nat
  configCache : ConfigMap
  deriving DecidableEq

/-- The zero value of `sSender`, as in `make([]sSender, n)`. -/
def zeroSender : sSender :=
  { number := 0
    dialer := { host := "", port := 0, username := "", password := "", ssl := false }
    sender := none
    openFlag := false
    stopC := .nilC
    closeFailedTimes := 0 }

/-- `NewSender`: a fresh dispatcher with `n` zero-valued worker slots and
an empty config cache; the queue channel is still nil. -/
def NewSender (n chanSize : Nat) : SEmailSender :=
  { msgChan := none
    senders := List.replicate n zeroSender
    senderNum := n
    chanelSize := chanSize
    configCache := [] }

/-- `SEmailSender.IsReady`: `msgChan != nil`. -/
def SEmailSender.IsReady (st : SEmailSender) : Bool :=
  st.msgChan.isSome

/-- The error returned by `initSender` when a required key is missing
(`errors.Wrap(common.ErrConfigMiss, noKey)`). -/
inductive InitError
  | configMiss (key : String)
  deriving DecidableEq

/-- `SEmailSender.initSender`, translated from the source: batch-read
hostname, password, username, hostport (in that order); fail with a
config-miss error if one is absent; otherwise build the dialer — the
hostport parse error is discarded, leaving port 0 — make the queue channel
only if it is still nil, and install a fresh worker per slot. The returned
state carries the mutations made before an error, Go-style. -/
def SEmailSender.initSender (st : SEmailSender) : SEmailSender × Option InitError :=
  let r := batchGet st.configCache [HOSTNAME, PASSWORD, USERNAME, HOSTPORT]
  if r.2.1 = false then
    (st, some (.configMiss r.2.2))
  else
    let hostName := r.1.getD 0 ""
    let password := r.1.getD 1 ""
    let userName := r.1.getD 2 ""
    let hostPortStr := r.1.getD 3 ""
    let hostPort := atoiOrZero hostPortStr
    let sslg := (cfgGet st.configCache GLOBALSSL).getD ""
    let ssl := (cfgGet st.configCache SSL).getD ""
    let dialer : Dialer :=
      { host := hostName, port := hostPort, username := userName,
        password := password, ssl := (sslg = "true" || ssl = "true") }
    let msgChan' := match st.msgChan with
      | none => some []
      | some q => some q
    let senders' := (List.range st.senderNum).map fun i =>
      ({ number := i + 1, dialer := dialer, sender := none, openFlag := false,
         stopC := .openC, closeFailedTimes := 0 } : sSender)
    ({ st with msgChan := msgChan', senders := senders' }, none)

/-- Stop every worker in order; the first panic aborts the caller. -/
def stopAll : List sSender → Except Panic (List sSender)
  | [] => .ok []
  | s :: rest =>
    match s.stop with
    | .error p => .error p
    | .ok s' =>
      match stopAll rest with
      | .error p => .error p
      | .ok rest' => .ok (s' :: rest')

/-- `SEmailSender.restartSender`: stop every existing worker (a panic
escapes), then `initSender`. -/
def SEmailSender.restartSender (st : SEmailSender) :
    Except Panic (SEmailSender × Option InitError) :=
  match stopAll st.senders with
  | .error p => .error p
  | .ok ss => .ok ({ st with senders := ss }).initSender

/-- `SEmailSender.UpdateConfig`: `Clean()` then `BatchSet(configs)` leaves
the cache holding exactly `configs`; then restart the pool. -/
def SEmailSender.UpdateConfig (st : SEmailSender) (configs : ConfigMap) :
    Except Panic (SEmailSender × Option InitError) :=
  ({ st with configCache := configs }).restartSender

/-- Which arm of the `select` in `send` fired: a boolean arrived on the
result channel, or the 1-minute timer fired first. -/
inductive SendOutcome
  | result (suc : Bool)
  | timerFired
  deriving DecidableEq

/-- The value `send` returns for a given `select` outcome: nil on a true
signal, `errors.Error("send error")` on a false signal, and the distinct
`errors.Error("send error, time out")` when the timer fires. -/
def sendWait (oc : SendOutcome) : Option String :=
  match oc with
  | .result true => none
  | .result false => some "send error"
  | .timerFired => some "send error, time out"

/-- `SEmailSender.send` (and `Send`, which only adds a debug log): build the
unit, push it on `msgChan` — a buffered channel of capacity `chanelSize` —
then wait on the result channel against a 1-minute timer. The enqueue
completes at once only when the buffer has room; on a nil channel it never
proceeds, and on a full buffer it blocks until a concurrent dequeue frees a
slot, which this single-call semantics over a state snapshot does not
schedule: both blocking cases are `none` (the call has not returned, and
the timer has not even started). On `some (st', r)` the unit was enqueued
and the call returned `r` (an error message, or `none` for nil). -/
def SEmailSender.send (st : SEmailSender) (m : Nat) (oc : SendOutcome) :
    Option (SEmailSender × Option String) :=
  match st.msgChan with
  | none => none
  | some q =>
    if q.length < st.chanelSize then
      some ({ st with msgChan := some (q ++ [m]) }, sendWait oc)
    else
      none

/-- Modelled from the spec: `common.BatchSend` (not under the included
sources) invokes `Send` once per message, collecting per-message failures,
and does not stop early on individual failures. Each message consumes one
`select` outcome; a blocked `send` blocks the batch (`none`). -/
def SEmailSender.BatchSend (st : SEmailSender) :
    List (Nat × SendOutcome) → Option (SEmailSender × List Nat)
  | [] => some (st, [])
  | (m, oc) :: rest =>
    match st.send m oc with
    | none => none
    | some (st', r) =>
      match st'.BatchSend rest with
      | none => none
      | some (st'', fails) =>
        some (st'', (match r with | none => fails | some _ => m :: fails))

/-- Outcome of the isolated dial-and-close goroutine raced against the
10-second ticker in `validateConfig`: the dial-and-close succeeded, it
failed with an error string, or the ticker fired first. -/
inductive DialOutcome
  | dialOk
  | dialFail (e : String)
  | timedOut
  deriving DecidableEq

/-- `validateConfig` (lower case): returns the error of the goroutine, or the
`errors.Error("timeout")` if the ticker won the select. `connInfo` is only
handed to the external dialer, whose outcome is the parameter. -/
def validateConfig (connInfo : SConnectInfo) (oc : DialOutcome) : Option String :=
  match connInfo, oc with
  | _, .timedOut => some "timeout"
  | _, .dialFail e => some e
  | _, .dialOk => none

/-- `ValidateConfig`, translated from the source: check the four required
keys (missing key: `err = require <key>`, message left empty); parse the
hostport (failure: `err = invalid hostport <v>`, message left empty); build
the connect info with the SSL flags; run the trial dial; on its error,
classify known substrings into a human-readable message and clear the
error. Returns `(isValid, msg, err)`. -/
def ValidateConfig (configs : ConfigMap) (oc : DialOutcome) :
    Bool × String × Option String :=
  let r := checkMap configs [HOSTNAME, HOSTPORT, USERNAME, PASSWORD]
  if r.2.1 = false then
    (false, "", some ("require " ++ r.2.2))
  else
    match atoi (r.1.getD 1 "") with
    | none => (false, "", some ("invalid hostport " ++ r.1.getD 1 ""))
    | some port =>
      let sslg := (cfgGet configs GLOBALSSL).getD ""
      let ssl := (cfgGet configs SSL).getD ""
      let conn : SConnectInfo :=
        { Hostname := r.1.getD 0 "", Hostport := port,
          Username := r.1.getD 2 "", Password := r.1.getD 3 "",
          Ssl := (if sslg = "true" then true else ssl = "true") }
      match validateConfig conn oc with
      | none => (true, "", none)
      | some e =>
        let msg :=
          if strContains e "535 Error" then "Authentication failed"
          else if strContains e "timeout" then "Connect timeout"
          else if strContains e "no such host" then "No such host"
          else e
        (false, msg, none)

/-- A `ValidateConfig` call seen together with the dispatcher state: the
function has no receiver and touches no dispatcher field, so the state
passes through unchanged. -/
def ValidateConfigCall (st : SEmailSender) (configs : ConfigMap)
    (oc : DialOutcome) : SEmailSender × (Bool × String × Option String) :=
  (st, ValidateConfig configs oc)

/-- Whether an `UpdateConfig` call returned nil (no panic, no error). -/
def updateSucceeds (st : SEmailSender) (cfg : ConfigMap) : Bool :=
  match st.UpdateConfig cfg with
  | .ok (_, none) => true
  | _ => false

/-! ## Theorems for the claims -/

/-- A sample dialer for concrete worker states. -/
def dialerEx : Dialer :=
  { host := "h", port := 25, username := "u", password := "p", ssl := false }

/-- C1: the claim says the result channel of every dequeued unit is signaled
exactly once regardless of the Open or Closed state of the worker. The code
contradicts it: an Open worker (openFlag true) that dequeues a message
sends nothing on the result channel — the whole handling sits under
`if !self.open` — even though the transport would accept the send. -/
theorem c1_open_worker_never_signals :
    (sSender.runStep
      { number := 1, dialer := dialerEx, sender := some 0, openFlag := true,
        stopC := .openC, closeFailedTimes := 0 }
      (.msgEv 7 true)
      { dial := .conn 1, sendErr := none, closeErr := none }).signals = [] := rfl

/-- C2: the claim says a message dequeued in the Open state is sent on the
existing connection with the outcome reported. The code contradicts it:
the iteration leaves the worker state unchanged, signals nothing and makes
no send attempt (the result is the same whatever the transport would do). -/
theorem c2_open_worker_drops_message :
    (sSender.runStep
      { number := 2, dialer := dialerEx, sender := some 3, openFlag := true,
        stopC := .openC, closeFailedTimes := 1 }
      (.msgEv 9 true)
      { dial := .conn 4, sendErr := none, closeErr := none }
    = ⟨{ number := 2, dialer := dialerEx, sender := some 3, openFlag := true,
         stopC := .openC, closeFailedTimes := 1 }, [], false⟩) ∧
    (sSender.runStep
      { number := 2, dialer := dialerEx, sender := some 3, openFlag := true,
        stopC := .openC, closeFailedTimes := 1 }
      (.msgEv 9 true)
      { dial := .dialErr "unreachable", sendErr := some "write failed",
        closeErr := some "broken" }
    = ⟨{ number := 2, dialer := dialerEx, sender := some 3, openFlag := true,
         stopC := .openC, closeFailedTimes := 1 }, [], false⟩) := by
  exact ⟨rfl, rfl⟩

/-- A valid four-key configuration for the C3 restart chain. -/
def c3cfgGood : ConfigMap :=
  [(HOSTNAME, "h"), (HOSTPORT, "25"), (USERNAME, "u"), (PASSWORD, "p")]

/-- Dispatcher state after the first (successful) UpdateConfig of the C3
chain. -/
def c3st1 : SEmailSender :=
  match (NewSender 1 4).UpdateConfig c3cfgGood with
  | .ok (s, _) => s
  | .error _ => NewSender 0 0

/-- Dispatcher state after the second UpdateConfig of the C3 chain, whose
re-initialization fails on the missing hostname key. -/
def c3st2 : SEmailSender :=
  match c3st1.UpdateConfig [(HOSTPORT, "25")] with
  | .ok (s, _) => s
  | .error _ => NewSender 0 0

/-- C3 counterexample: the claim says signaling stop is idempotent and
never panics, for any sequence of restarts including one after a failed
re-initialization. Concretely: a successful UpdateConfig, then an
UpdateConfig whose re-init fails (stop closed the stop channel of every worker
but no new workers were installed), then any further UpdateConfig panics
closing the already-closed stop channel. -/
theorem c3_counterexample :
    ((NewSender 1 4).UpdateConfig c3cfgGood
      = .ok (c3st1, none)) ∧
    (c3st1.UpdateConfig [(HOSTPORT, "25")]
      = .ok (c3st2, some (.configMiss HOSTNAME))) ∧
    (c3st2.UpdateConfig c3cfgGood = .error .closeOfClosedChannel) := by
  exact ⟨rfl, rfl, rfl⟩

/-- C3 amended: stop is a no-op only on a never-started worker (nil stop
channel); on a started, not-yet-stopped worker it closes the channel; on an
already-stopped worker it panics (close of a closed channel). -/
theorem c3_stop_cases (s : sSender) :
    (s.stopC = ChanState.nilC → s.stop = .ok s) ∧
    (s.stopC = ChanState.openC → s.stop = .ok { s with stopC := .closedC }) ∧
    (s.stopC = ChanState.closedC → s.stop = .error .closeOfClosedChannel) := by
  refine ⟨fun h => ?_, fun h => ?_, fun h => ?_⟩ <;> simp [sSender.stop, h]

/-- C3 witness: the three stop behaviors at concrete workers. -/
theorem c3_stop_cases_witness :
    (zeroSender.stop = .ok zeroSender) ∧
    (sSender.stop { zeroSender with stopC := .openC }
      = .ok { zeroSender with stopC := .closedC }) ∧
    (sSender.stop { zeroSender with stopC := .closedC }
      = .error .closeOfClosedChannel) :=
  ⟨(c3_stop_cases zeroSender).1 rfl,
   (c3_stop_cases { zeroSender with stopC := .openC }).2.1 rfl,
   (c3_stop_cases { zeroSender with stopC := .closedC }).2.2 rfl⟩

/-- An open C4 worker with a fresh failure counter. -/
def c4w : sSender :=
  { number := 1, dialer := dialerEx, sender := some 0, openFlag := true,
    stopC := .openC, closeFailedTimes := 0 }

/-- A transport whose close call fails. -/
def c4tr : Transport :=
  { dial := .conn 0, sendErr := none, closeErr := some "close failed" }

/-- C4 counterexample: the claim says the 2nd consecutive close failure
forces the open flag to false and resets the counter. Concretely, after two
consecutive failing idle-close attempts the worker is still open with
counter 2: the code flips only when the counter exceeds 2, which takes a
4th failure. -/
theorem c4_counterexample :
    (((c4w.runStep .idleEv c4tr).st.runStep .idleEv c4tr).st.openFlag = true) ∧
    (((c4w.runStep .idleEv c4tr).st.runStep .idleEv c4tr).st.closeFailedTimes = 2) := by
  exact ⟨rfl, rfl⟩

/-- C4 amended: on a failing idle-close attempt an open worker stays open
and increments its failure counter while the counter is at most 2 (so the
1st, 2nd and 3rd counted failures leave it open); on a failing attempt with
counter above 2 — the 4th counted failure starting from a fresh worker — it
forces the open flag to false and resets the counter to 0, whether or not
the connection was released. (The counter is not reset by a successful
close, so the counted failures need not be consecutive.) -/
theorem c4_close_failure_threshold (s : sSender) (e : String) (tr : Transport)
    (ho : s.openFlag = true) (hc : tr.closeErr = some e) :
    (s.closeFailedTimes ≤ 2 →
      (s.runStep .idleEv tr).st = { s with closeFailedTimes := s.closeFailedTimes + 1 }) ∧
    (s.closeFailedTimes > 2 →
      (s.runStep .idleEv tr).st = { s with closeFailedTimes := 0, openFlag := false }) := by
  constructor <;> intro hn <;>
    simp [sSender.runStep, ho, hc, Nat.not_lt.mpr, hn, Nat.not_lt_of_le]

/-- C4 witness: the first failure keeps a fresh worker open with counter 1;
a failure at counter 3 forces the flag down and resets the counter. -/
theorem c4_threshold_witness :
    ((c4w.runStep .idleEv c4tr).st = { c4w with closeFailedTimes := 1 }) ∧
    ((sSender.runStep { c4w with closeFailedTimes := 3 } .idleEv c4tr).st
      = { c4w with closeFailedTimes := 0, openFlag := false }) :=
  ⟨(c4_close_failure_threshold c4w "close failed" c4tr rfl rfl).1 (by decide),
   (c4_close_failure_threshold { c4w with closeFailedTimes := 3 }
      "close failed" c4tr rfl rfl).2 (by decide)⟩

/-- C5 counterexample: the claim says Send returns within the fixed bound
for every message, reachable transport or not. On a dispatcher whose queue
channel was never constructed (no successful UpdateConfig), `send` pushes
on a nil channel and never proceeds: the call never returns, whatever
outcome the select would offer. -/
theorem c5_counterexample :
    (NewSender 2 10).send 0 (.result true) = none := rfl

/-- C5 amended: when the shared queue channel has been constructed and its
buffer has spare capacity (fewer than chanelSize pending units), a Send
call enqueues its unit and returns within the 1-minute select bound — nil
on a true result signal, the delivery error on a false signal, and the
distinct timeout error when the timer fires first. With a nil queue, or
with a full buffer and nothing dequeuing (reachable when a failed
UpdateConfig left the pool stopped), the call blocks at the enqueue,
before the timer is even started. -/
theorem c5_send_bounded_return (st : SEmailSender) (q : List Nat) (m : Nat)
    (oc : SendOutcome) (h : st.msgChan = some q) :
    (q.length < st.chanelSize →
      st.send m oc =
        some ({ st with msgChan := some (q ++ [m]) },
          match oc with
          | .result true => none
          | .result false => some "send error"
          | .timerFired => some "send error, time out")) ∧
    (¬ q.length < st.chanelSize → st.send m oc = none) := by
  constructor <;> intro hlen
  · cases oc with
    | result suc => cases suc <;> simp [SEmailSender.send, h, hlen, sendWait]
    | timerFired => simp [SEmailSender.send, h, hlen, sendWait]
  · simp [SEmailSender.send, h, hlen]

/-- C5 witness: the three return values on a ready dispatcher with spare
capacity, and the blocked enqueue on a full buffer of capacity 2. -/
theorem c5_send_witness :
    (SEmailSender.send { NewSender 1 4 with msgChan := some [] } 5 (.result true)
      = some ({ NewSender 1 4 with msgChan := some [5] }, none)) ∧
    (SEmailSender.send { NewSender 1 4 with msgChan := some [] } 5 (.result false)
      = some ({ NewSender 1 4 with msgChan := some [5] }, some "send error")) ∧
    (SEmailSender.send { NewSender 1 4 with msgChan := some [] } 5 .timerFired
      = some ({ NewSender 1 4 with msgChan := some [5] }, some "send error, time out")) ∧
    (SEmailSender.send { NewSender 1 2 with msgChan := some [8, 9] } 5 (.result true)
      = none) :=
  ⟨(c5_send_bounded_return { NewSender 1 4 with msgChan := some [] }
      [] 5 (.result true) rfl).1 (by decide),
   (c5_send_bounded_return { NewSender 1 4 with msgChan := some [] }
      [] 5 (.result false) rfl).1 (by decide),
   (c5_send_bounded_return { NewSender 1 4 with msgChan := some [] }
      [] 5 .timerFired rfl).1 (by decide),
   (c5_send_bounded_return { NewSender 1 2 with msgChan := some [8, 9] }
      [8, 9] 5 (.result true) rfl).2 (by decide)⟩

/-- C6 counterexample: the claim says the missing-password call returns
"require password" as the human-readable message. The code leaves the
message empty on that path — "require password" is the returned error, not
the message. -/
theorem c6_counterexample :
    ((ValidateConfig [(HOSTNAME, "smtp.example.com"), (HOSTPORT, "587"),
        (USERNAME, "u")] .dialOk).2.1 = "") ∧
    ((ValidateConfig [(HOSTNAME, "smtp.example.com"), (HOSTPORT, "587"),
        (USERNAME, "u")] .dialOk).2.1 ≠ "require password") := by
  exact ⟨rfl, by decide⟩

/-- C6 amended: with host, port and username present but the password key
missing, ValidateConfig returns `(false, "", err)` with the error reading
"require password" (the human-readable message stays empty); with the
password present and the trial dial failing with a "535 Error" message, it
returns `(false, "Authentication failed", nil)`. -/
theorem c6_validate_scenarios :
    (ValidateConfig [(HOSTNAME, "smtp.example.com"), (HOSTPORT, "587"),
        (USERNAME, "u")] .dialOk
      = (false, "", some "require password")) ∧
    (ValidateConfig [(HOSTNAME, "smtp.example.com"), (HOSTPORT, "587"),
        (USERNAME, "u"), (PASSWORD, "p")]
        (.dialFail "535 Error: authentication failed")
      = (false, "Authentication failed", none)) := by
  exact ⟨rfl, by decide⟩

/-- A returning `send` call started from a ready dispatcher and ends on a
ready dispatcher. -/
theorem send_ready (st st1 : SEmailSender) (m : Nat) (oc : SendOutcome)
    (r : Option String) (h : st.send m oc = some (st1, r)) :
    st1.IsReady = true ∧ st.IsReady = true := by
  unfold SEmailSender.send at h
  split at h
  · exact absurd h (by simp)
  · rename_i q hm
    split at h
    · simp only [Option.some.injEq, Prod.mk.injEq] at h
      refine ⟨?_, by simp [SEmailSender.IsReady, hm]⟩
      rw [← h.1]
      simp [SEmailSender.IsReady]
    · exact absurd h (by simp)

/-- A returning `BatchSend` call leaves readiness unchanged. -/
theorem batchSend_ready (jobs : List (Nat × SendOutcome)) :
    ∀ (st st2 : SEmailSender) (fails : List Nat),
      st.BatchSend jobs = some (st2, fails) → st2.IsReady = st.IsReady := by
  induction jobs with
  | nil =>
    intro st st2 fails h
    simp only [SEmailSender.BatchSend, Option.some.injEq, Prod.mk.injEq] at h
    rw [← h.1]
  | cons job rest ih =>
    intro st st2 fails h
    obtain ⟨m, oc⟩ := job
    simp only [SEmailSender.BatchSend] at h
    split at h
    · exact absurd h (by simp)
    · rename_i st1 r hs
      split at h
      · exact absurd h (by simp)
      · rename_i stB fl hb
        simp only [Option.some.injEq, Prod.mk.injEq] at h
        have hr1 := send_ready st st1 m oc r hs
        have hr2 := ih st1 stB fl hb
        rw [← h.1, hr2, hr1.1, hr1.2]

/-- C7: IsReady is true exactly when the shared queue channel has been
constructed; a successful UpdateConfig leaves the queue constructed, and
returning Send and BatchSend calls keep readiness, so IsReady stays true
until the next UpdateConfig. -/
theorem c7_isReady_queue (st st' : SEmailSender) (cfg : ConfigMap) :
    (st.IsReady = st.msgChan.isSome) ∧
    (st.UpdateConfig cfg = .ok (st', none) → st'.IsReady = true) ∧
    (∀ (m : Nat) (oc : SendOutcome) (st2 : SEmailSender) (r : Option String),
      st.send m oc = some (st2, r) → st2.IsReady = true) ∧
    (∀ (jobs : List (Nat × SendOutcome)) (st2 : SEmailSender) (fails : List Nat),
      st.BatchSend jobs = some (st2, fails) → st2.IsReady = st.IsReady) := by
  refine ⟨rfl, ?_, ?_, ?_⟩
  · intro h
    unfold SEmailSender.UpdateConfig SEmailSender.restartSender at h
    cases hstop : stopAll ({ st with configCache := cfg } : SEmailSender).senders with
    | error p => rw [hstop] at h; exact absurd h (by simp)
    | ok ss =>
      rw [hstop] at h
      simp only [Except.ok.injEq] at h
      unfold SEmailSender.initSender at h
      by_cases hok :
          (batchGet ({ { st with configCache := cfg } with senders := ss }
            : SEmailSender).configCache [HOSTNAME, PASSWORD, USERNAME, HOSTPORT]).2.1 = false
      · rw [if_pos hok] at h
        exact absurd (congrArg Prod.snd h) (by simp)
      · rw [if_neg hok] at h
        have h1 := congrArg Prod.fst h
        simp only at h1
        rw [← h1]
        simp only [SEmailSender.IsReady]
        cases st.msgChan <;> simp
  · intro m oc st2 r h
    exact (send_ready st st2 m oc r h).1
  · intro jobs st2 fails h
    exact batchSend_ready jobs st st2 fails h

/-- The configuration used in the C7 witness. -/
def c7cfg : ConfigMap :=
  [(HOSTNAME, "smtp.example.com"), (HOSTPORT, "465"), (USERNAME, "u"), (PASSWORD, "p")]

/-- Dispatcher after the C7 witness UpdateConfig. -/
def c7st : SEmailSender :=
  match (NewSender 1 3).UpdateConfig c7cfg with
  | .ok (s, _) => s
  | .error _ => NewSender 0 0

/-- Dispatcher after the C7 witness Send. -/
def c7st2 : SEmailSender :=
  match c7st.send 5 (.result true) with
  | some (s, _) => s
  | none => NewSender 0 0

/-- Dispatcher after the C7 witness BatchSend. -/
def c7st3 : SEmailSender :=
  match c7st.BatchSend [(6, .result false)] with
  | some (s, _) => s
  | none => NewSender 0 0

/-- C7 witness: a concrete successful UpdateConfig yields readiness, and a
concrete Send and BatchSend keep it. -/
theorem c7_isReady_witness :
    (c7st.IsReady = true) ∧ (c7st2.IsReady = true) ∧
    (c7st3.IsReady = c7st.IsReady) :=
  ⟨(c7_isReady_queue (NewSender 1 3) c7st c7cfg).2.1 rfl,
   (c7_isReady_queue c7st c7st c7cfg).2.2.1 5 (.result true) c7st2 none rfl,
   (c7_isReady_queue c7st c7st c7cfg).2.2.2 [(6, .result false)] c7st3 [6] rfl⟩

/-- C8: once the shared queue channel is non-nil with pending units `q`, a
returning restart — whether its re-initialization succeeded or failed —
leaves the very same queue with the very same pending units for the new
worker set; the queue is never rebuilt or dropped. -/
theorem c8_queue_reused (st st' : SEmailSender) (q : List Nat)
    (e : Option InitError) (hq : st.msgChan = some q)
    (hr : st.restartSender = .ok (st', e)) :
    st'.msgChan = some q := by
  unfold SEmailSender.restartSender at hr
  cases hstop : stopAll st.senders with
  | error p => rw [hstop] at hr; exact absurd hr (by simp)
  | ok ss =>
    rw [hstop] at hr
    simp only [Except.ok.injEq] at hr
    unfold SEmailSender.initSender at hr
    by_cases hok :
        (batchGet ({ st with senders := ss } : SEmailSender).configCache
          [HOSTNAME, PASSWORD, USERNAME, HOSTPORT]).2.1 = false
    · rw [if_pos hok] at hr
      have h1 := congrArg Prod.fst hr
      simp only at h1
      rw [← h1]
      exact hq
    · rw [if_neg hok] at hr
      have h1 := congrArg Prod.fst hr
      simp only at h1
      rw [← h1]
      simp only
      rw [show ({ st with senders := ss } : SEmailSender).msgChan = some q from hq]

/-- The dispatcher of the C8 witness: a non-nil queue holding unit 42. -/
def c8st : SEmailSender :=
  { msgChan := some [42], senders := [], senderNum := 1, chanelSize := 3,
    configCache := [(HOSTNAME, "h"), (HOSTPORT, "25"), (USERNAME, "u"), (PASSWORD, "p")] }

/-- Result of the C8 witness restart. -/
def c8out : SEmailSender × Option InitError :=
  match c8st.restartSender with
  | .ok p => p
  | .error _ => (c8st, none)

/-- C8 witness: the concrete restart keeps unit 42 queued. -/
theorem c8_queue_reused_witness : c8out.1.msgChan = some [42] :=
  c8_queue_reused c8st c8out.1 [42] c8out.2 rfl rfl

/-- C9: a ValidateConfig call leaves every piece of dispatcher state — the
config cache, the shared queue and the worker set — exactly as it was: the
function has no receiver and only races an isolated dial-and-close attempt
against its own 10-second ticker. -/
theorem c9_validate_frame (st : SEmailSender) (configs : ConfigMap)
    (oc : DialOutcome) :
    ((ValidateConfigCall st configs oc).1 = st) ∧
    ((ValidateConfigCall st configs oc).1.configCache = st.configCache) ∧
    ((ValidateConfigCall st configs oc).1.msgChan = st.msgChan) ∧
    ((ValidateConfigCall st configs oc).1.senders = st.senders) :=
  ⟨rfl, rfl, rfl, rfl⟩

/-- C10 counterexample: the claim quantifies over every configuration whose
hostport is present but not decimal; a configuration holding only such a
hostport still fails UpdateConfig (the other required keys are missing), so
the claim as stated is false. -/
theorem c10_counterexample :
    (cfgGet [(HOSTPORT, "abc")] HOSTPORT = some "abc") ∧
    (atoi "abc" = none) ∧
    (updateSucceeds (NewSender 1 5) [(HOSTPORT, "abc")] = false) := by
  exact ⟨rfl, rfl, rfl⟩

/-- Stopping a fresh (zero-valued) worker list is a no-op. -/
theorem stopAll_replicate_zero (n : Nat) :
    stopAll (List.replicate n zeroSender) = .ok (List.replicate n zeroSender) := by
  induction n with
  | zero => rfl
  | succ k ih =>
    rw [List.replicate_succ, stopAll, show zeroSender.stop = Except.ok zeroSender from rfl, ih]

/-- Evaluation of `initSender` when all four required keys are present. -/
theorem initSender_found (st : SEmailSender) (hn pw un p : String)
    (h1 : cfgGet st.configCache HOSTNAME = some hn)
    (h2 : cfgGet st.configCache PASSWORD = some pw)
    (h3 : cfgGet st.configCache USERNAME = some un)
    (h4 : cfgGet st.configCache HOSTPORT = some p) :
    st.initSender =
      ({ st with
          msgChan := match st.msgChan with | none => some [] | some q => some q,
          senders := (List.range st.senderNum).map fun i =>
            ({ number := i + 1,
               dialer :=
                 { host := hn, port := atoiOrZero p, username := un, password := pw,
                   ssl := ((cfgGet st.configCache GLOBALSSL).getD "" = "true"
                     || (cfgGet st.configCache SSL).getD "" = "true") },
               sender := none, openFlag := false, stopC := .openC,
               closeFailedTimes := 0 } : sSender) }, none) := by
  simp [SEmailSender.initSender, batchGet, h1, h2, h3, h4]

/-- C10 amended: for every configuration holding all four required keys
whose hostport value is not a decimal integer, UpdateConfig on a fresh
dispatcher succeeds — initSender discards the parse error and every new
dialer of every new worker carries port 0 — while ValidateConfig rejects the same
configuration with an "invalid hostport" error. -/
theorem c10_invalid_port_divergence (n c : Nat) (cfg : ConfigMap)
    (hn pw un p : String) (oc : DialOutcome)
    (h1 : cfgGet cfg HOSTNAME = some hn)
    (h2 : cfgGet cfg PASSWORD = some pw)
    (h3 : cfgGet cfg USERNAME = some un)
    (h4 : cfgGet cfg HOSTPORT = some p)
    (hbad : atoi p = none) :
    (∃ st', (NewSender n c).UpdateConfig cfg = .ok (st', none) ∧
      ∀ s ∈ st'.senders, s.dialer.port = 0) ∧
    (ValidateConfig cfg oc = (false, "", some ("invalid hostport " ++ p))) := by
  constructor
  · have hstop : stopAll ({ NewSender n c with configCache := cfg } : SEmailSender).senders
        = .ok (List.replicate n zeroSender) := by
      show stopAll (NewSender n c).senders = _
      exact stopAll_replicate_zero n
    have hinit := initSender_found
      ({ { NewSender n c with configCache := cfg } with
          senders := List.replicate n zeroSender } : SEmailSender)
      hn pw un p h1 h2 h3 h4
    refine ⟨(({ { NewSender n c with configCache := cfg } with
        senders := List.replicate n zeroSender } : SEmailSender).initSender).1, ?_, ?_⟩
    · unfold SEmailSender.UpdateConfig SEmailSender.restartSender
      rw [hstop]
      show Except.ok (({ { NewSender n c with configCache := cfg } with
          senders := List.replicate n zeroSender } : SEmailSender).initSender) = _
      rw [hinit]
    · rw [hinit]
      simp only [List.mem_map]
      rintro s ⟨i, -, hi⟩
      rw [← hi]
      simp [atoiOrZero, hbad]
  · simp only [ValidateConfig, checkMap, batchGet, List.map, List.all,
      h1, h2, h3, h4, Option.getD, Option.isSome]
    simp [List.getD, List.get?, hbad]

/-- The configuration of the C10 witness: all four keys present, hostport
not a decimal integer. -/
def c10cfg : ConfigMap :=
  [(HOSTNAME, "h"), (HOSTPORT, "25x"), (USERNAME, "u"), (PASSWORD, "p")]

/-- C10 witness: the concrete divergent configuration passes UpdateConfig
with worker port 0 and fails ValidateConfig. -/
theorem c10_divergence_witness :
    (∃ st', (NewSender 1 5).UpdateConfig c10cfg = .ok (st', none) ∧
      ∀ s ∈ st'.senders, s.dialer.port = 0) ∧
    (ValidateConfig c10cfg .dialOk
      = (false, "", some ("invalid hostport " ++ "25x"))) :=
  c10_invalid_port_divergence 1 5 c10cfg "h" "p" "u" "25x" .dialOk
    rfl rfl rfl rfl rfl

end NotifyEmail
